import Mathlib

set_option maxRecDepth 8192

/-!
Verification of the idswarp backend's list-query subsystem and employee CRUD
handlers (`handlers/employee.go`, `handlers/department.go`,
`handlers/location.go`) against their natural-language specification.

The Go code is shallowly embedded: each handler becomes a pure Lean function
over an explicit database oracle, Go's machine integers become `Int` (the
values involved are small; `strconv.Atoi`'s int64 range clamping is modelled
explicitly), `sql.NullXxx` columns become `Option`, and Go's nil-vs-empty
slice distinction (which `encoding/json` renders as `null` vs `[]`) is kept
by the `GoSlice` type.
-/

/-- A calendar timestamp as carried by Go's `time.Time` after the `lib/pq`
driver has decoded a SQL timestamp column (`sql.NullTime`).  Only the fields
that the handlers' `Format` layouts print are modelled. -/
structure GoTime where
  year : Nat
  month : Nat
  day : Nat
  hour : Nat
  minute : Nat
  second : Nat
deriving Repr, DecidableEq

/-- Two-digit zero padding, as Go's `time.Format` does for layout tokens
`01`, `02`, `15`, `04`, `05`. -/
def pad2 (n : Nat) : String :=
  if n < 10 then "0" ++ toString n else toString n

/-- Four-digit zero padding, as Go's `time.Format` does for layout token
`2006`. -/
def pad4 (n : Nat) : String :=
  if n < 10 then "000" ++ toString n
  else if n < 100 then "00" ++ toString n
  else if n < 1000 then "0" ++ toString n
  else toString n

/-- Go `t.Format("2006-01-02")`, the date-only layout used for the
`birth_date` and `hire_date` columns in `handlers/employee.go`. -/
def GoTime.formatDateOnly (t : GoTime) : String :=
  pad4 t.year ++ "-" ++ pad2 t.month ++ "-" ++ pad2 t.day

/-- Go `t.Format("2006-01-02 15:04:05")`, the date-plus-time layout used for
the `created_at` and `updated_at` columns in `handlers/employee.go`. -/
def GoTime.formatDateTime (t : GoTime) : String :=
  t.formatDateOnly ++ " " ++ pad2 t.hour ++ ":" ++ pad2 t.minute ++ ":" ++ pad2 t.second

/-- A value bound as a SQL statement parameter, mirroring the
`interface\x7b\x7d` arguments passed to `DB.QueryRow` / `DB.Query` in the
handlers.  `null` models a nil interface value (sent as SQL NULL). -/
inductive GoValue where
  | str (s : String)
  | int (i : Int)
  | bool (b : Bool)
  | null
deriving Repr, DecidableEq

/-- A Go slice, keeping the distinction between the nil slice (the zero value
of `var xs []T`, which `encoding/json` encodes as `null`) and a non-nil
slice (encoded as a JSON array). -/
inductive GoSlice (α : Type) where
  | nil
  | mk (elems : List α)
deriving Repr, DecidableEq

/-- Go's `append(s, a)`: appending to a nil slice yields a non-nil slice. -/
def GoSlice.push {α : Type} : GoSlice α → α → GoSlice α
  | GoSlice.nil, a => GoSlice.mk [a]
  | GoSlice.mk l, a => GoSlice.mk (l ++ [a])

/-- The underlying elements of a Go slice (nil and empty both have none). -/
def GoSlice.toList {α : Type} : GoSlice α → List α
  | GoSlice.nil => []
  | GoSlice.mk l => l

/-- `encoding/json` on a Go slice: the nil slice encodes as `null`; a non-nil
slice encodes as a JSON array of its encoded elements. -/
def goJsonEncodeSlice {α : Type} (enc : α → String) : GoSlice α → String
  | GoSlice.nil => "null"
  | GoSlice.mk l => "[" ++ String.intercalate "," (l.map enc) ++ "]"

/-- `net/url`'s `Values.Get`: first value for the key, or `""` when the
parameter is absent from the query string. -/
def goQueryGet (q : List (String × String)) (key : String) : String :=
  match q.find? (fun kv => kv.fst = key) with
  | some kv => kv.snd
  | none => ""

/-- Syntactic integer parse underlying `strconv.Atoi`: optional sign followed
by one or more decimal digits; `none` on any other input (Atoi's ErrSyntax
case). The value is unbounded here; range clamping is applied in `atoi`. -/
def parseIntStr (s : String) : Option Int :=
  match s.data with
  | [] => none
  | c :: rest =>
    let signedDigits : Bool × List Char :=
      if c = '-' then (true, rest)
      else if c = '+' then (false, rest)
      else (false, c :: rest)
    match signedDigits with
    | (neg, ds) =>
      if ds.isEmpty then none
      else if ds.all Char.isDigit then
        let n : Nat := ds.foldl (fun a d => a * 10 + (d.toNat - 48)) 0
        some (if neg then -(n : Int) else (n : Int))
      else none

/-- Largest value of Go's 64-bit `int`. -/
def int64Max : Int := 9223372036854775807

/-- Smallest value of Go's 64-bit `int`. -/
def int64Min : Int := -9223372036854775808

/-- Go `strconv.Atoi` with the error discarded, as the handlers do
(`page, _ := strconv.Atoi(...)`): syntax errors yield 0, range errors yield
the clamped extreme of `int64`. -/
def atoi (s : String) : Int :=
  match parseIntStr s with
  | none => 0
  | some v => if v > int64Max then int64Max else if v < int64Min then int64Min else v

/-- The `page` validation in `GetEmployeeList` (employee.go:229-232):
parse, then clamp anything below 1 to 1. -/
def clampPage (raw : String) : Int :=
  let page := atoi raw
  if page < 1 then 1 else page

/-- The `page_size` validation in `GetEmployeeList` (employee.go:234-237):
parse, then replace anything outside [1,100] with the default 10. -/
def clampPageSize (raw : String) : Int :=
  let pageSize := atoi raw
  if pageSize < 1 ∨ pageSize > 100 then 10 else pageSize

/-- The sort-field allow-list `validSortFields` of `GetEmployeeList`
(employee.go:245-250). -/
def validSortFields : List String :=
  ["id", "employee_code", "prefix_name", "first_name", "last_name", "email",
   "department", "position", "created_at", "updated_at", "is_active"]

/-- Go `strings.ToUpper` restricted to the ASCII range, which is all that the
normalized sort order ("asc"/"desc") exercises. -/
def goToUpper (s : String) : String :=
  String.mk (s.data.map Char.toUpper)

/-- The search `WHERE` clause and its bound arguments built in
`GetEmployeeList` (employee.go:266-277): empty search means no filter; a
non-empty search is an OR of three ILIKE matches over first_name, last_name
and email, with the `%`-wrapped pattern bound once per placeholder. -/
def buildSearchWhere (search : String) : String × List GoValue :=
  if search ≠ "" then
    (" WHERE (first_name ILIKE $" ++ toString 1 ++
       " OR last_name ILIKE $" ++ toString 2 ++
       " OR email ILIKE $" ++ toString 3 ++ ")",
     let searchPattern := "%" ++ search ++ "%"
     [GoValue.str searchPattern, GoValue.str searchPattern, GoValue.str searchPattern])
  else ("", [])

/-- The value of `argIndex` after the search clause is built
(employee.go:268, 276): 4 when the three search bindings exist, else 1. -/
def argIndexAfterSearch (search : String) : Int :=
  if search ≠ "" then 4 else 1

/-- The page-fetch SQL text assembled by `fmt.Sprintf` in `GetEmployeeList`
(employee.go:292-299), with the where clause, validated sort column,
upper-cased sort order, and the LIMIT/OFFSET placeholder indices spliced in. -/
def mainQueryText (whereClause sortBy sortOrderUpper : String) (limitIdx offsetIdx : Int) : String :=
  "\n\t\t\tSELECT id, employee_code, prefix_name, first_name, last_name, nickname, \n\t\t\t\t   email, phone_number, gender, birth_date, hire_date, department, \n\t\t\t\t   position, employment_type, is_active, created_at, updated_at \n\t\t\tFROM m_employee" ++
    whereClause ++ " \n\t\t\tORDER BY " ++ sortBy ++ " " ++ sortOrderUpper ++
    " \n\t\t\tLIMIT $" ++ toString limitIdx ++ " OFFSET $" ++ toString offsetIdx

/-- Outcome of `GetEmployeeList`'s parameter validation and query assembly:
either the 400 rejection for an unknown sort field, or the validated
page/page_size together with the count and page statements and their
bindings. -/
inductive ListPlan where
  | badRequest (msg : String)
  | queries (page pageSize : Int) (countQuery : String) (countArgs : List GoValue)
      (mainQuery : String) (mainArgs : List GoValue)
deriving Repr, DecidableEq

/-- Parameter validation and query assembly of `GetEmployeeList`
(employee.go:229-302): clamp page and page_size, default an empty sort_by to
created_at, reject a sort_by outside the allow-list with 400, default the
sort order to asc, then build the count and page statements over the shared
search predicate. -/
def planList (pageRaw pageSizeRaw sortByRaw sortOrderRaw search : String) : ListPlan :=
  let page := clampPage pageRaw
  let pageSize := clampPageSize pageSizeRaw
  let sortBy := if sortByRaw = "" then "created_at" else sortByRaw
  if ¬ validSortFields.contains sortBy then
    ListPlan.badRequest "Invalid sort field"
  else
    let sortOrder := if sortOrderRaw ≠ "asc" ∧ sortOrderRaw ≠ "desc" then "asc" else sortOrderRaw
    let whereAndArgs := buildSearchWhere search
    let argIndex := argIndexAfterSearch search
    let countQuery := "SELECT COUNT(*) FROM m_employee" ++ whereAndArgs.fst
    let offset := (page - 1) * pageSize
    let mainQuery := mainQueryText whereAndArgs.fst sortBy (goToUpper sortOrder) argIndex (argIndex + 1)
    ListPlan.queries page pageSize countQuery whereAndArgs.snd mainQuery
      (whereAndArgs.snd ++ [GoValue.int pageSize, GoValue.int offset])

/-- The employee response record (`Employee` struct, employee.go:12-30); all
fields are JSON-native scalars, timestamps already formatted to strings. -/
structure Employee where
  id : String
  employee_code : String
  prefix_name : String
  first_name : String
  last_name : String
  nickname : String
  email : String
  phone_number : String
  gender : Int
  birth_date : String
  hire_date : String
  department : String
  position : String
  employment_type : Int
  is_active : Bool
  created_at : String
  updated_at : String
deriving Repr, DecidableEq

/-- A raw `m_employee` row as scanned by the handlers: the columns read into
`sql.NullString` / `sql.NullInt32` / `sql.NullTime` become `Option`; the
columns scanned directly into the struct (`id`, `prefix_name`, `first_name`,
`last_name`, `is_active`) are non-nullable. -/
structure EmployeeRow where
  id : String
  employee_code : Option String
  prefix_name : String
  first_name : String
  last_name : String
  nickname : Option String
  email : Option String
  phone_number : Option String
  gender : Option Int
  birth_date : Option GoTime
  hire_date : Option GoTime
  department : Option String
  position : Option String
  employment_type : Option Int
  is_active : Bool
  created_at : Option GoTime
  updated_at : Option GoTime
deriving Repr, DecidableEq

/-- The nullable-field handling shared by `GetEmployeeByID`
(employee.go:159-195), `GetEmployeeList` (employee.go:345-381) and
`UpdateEmployee` (employee.go:524-560): a missing optional column leaves the
struct's zero value (`""`, 0), a present string/int column is copied, a
present `birth_date`/`hire_date` is formatted date-only and a present
`created_at`/`updated_at` is formatted date-plus-time. -/
def materializeEmployee (row : EmployeeRow) : Employee :=
  { id := row.id
    employee_code := row.employee_code.getD ""
    prefix_name := row.prefix_name
    first_name := row.first_name
    last_name := row.last_name
    nickname := row.nickname.getD ""
    email := row.email.getD ""
    phone_number := row.phone_number.getD ""
    gender := row.gender.getD 0
    birth_date := (row.birth_date.map GoTime.formatDateOnly).getD ""
    hire_date := (row.hire_date.map GoTime.formatDateOnly).getD ""
    department := row.department.getD ""
    position := row.position.getD ""
    employment_type := row.employment_type.getD 0
    is_active := row.is_active
    created_at := (row.created_at.map GoTime.formatDateTime).getD ""
    updated_at := (row.updated_at.map GoTime.formatDateTime).getD "" }

/-- Go's `/` on integers truncates toward zero; on `Int` that is `Int.tdiv`. -/
def goDiv (a b : Int) : Int := Int.tdiv a b

/-- The pagination calculation `totalPages := (totalRecords + pageSize - 1) /
pageSize` of `GetEmployeeList` (employee.go:393), in Go integer arithmetic. -/
def totalPagesCalc (total pageSize : Int) : Int :=
  goDiv (total + pageSize - 1) pageSize

/-- The `EmployeeListResponse` envelope (employee.go:32-38).  `data` is a Go
slice so that its JSON encoding (nil versus empty array) is determined. -/
structure EmployeeListResponse where
  data : GoSlice Employee
  total : Int
  page : Int
  page_size : Int
  total_pages : Int
deriving Repr, DecidableEq

/-- The database oracle for one `GetEmployeeList` request: the result the
store would give to the count statement and to the page statement. -/
structure ListDB where
  countResult : Except String Int
  pageResult : Except String (List EmployeeRow)

/-- A query issued to the store, tagged by the call site that issued it:
the count statement (employee.go:282) or the page fetch (employee.go:305). -/
inductive IssuedQuery where
  | countQ (sql : String) (args : List GoValue)
  | pageQ (sql : String) (args : List GoValue)
deriving Repr, DecidableEq

/-- The HTTP outcome of a `GetEmployeeList` request. -/
inductive ListOutcome where
  | badRequest (body : String)
  | serverError (body : String)
  | ok (resp : EmployeeListResponse)
deriving Repr, DecidableEq

/-- A `GetEmployeeList` execution: its HTTP outcome plus the queries it
issued to the store, in order. -/
structure ListExec where
  outcome : ListOutcome
  issued : List IssuedQuery
deriving Repr, DecidableEq

/-- The `GetEmployeeList` handler (employee.go:219-408) for a GET request,
as a function of the raw query parameters and the store's responses: validate
and plan (400 on a bad sort field before any query), run the count statement
(500 aborts before the page statement), run the page statement, materialize
each row into the accumulating slice, and build the envelope echoing the
validated page/page_size. -/
def GetEmployeeList (pageRaw pageSizeRaw sortByRaw sortOrderRaw search : String)
    (db : ListDB) : ListExec :=
  match planList pageRaw pageSizeRaw sortByRaw sortOrderRaw search with
  | ListPlan.badRequest msg => ⟨ListOutcome.badRequest msg, []⟩
  | ListPlan.queries page pageSize countQuery countArgs mainQuery mainArgs =>
    match db.countResult with
    | Except.error e =>
        ⟨ListOutcome.serverError ("Error counting employees: " ++ e),
         [IssuedQuery.countQ countQuery countArgs]⟩
    | Except.ok totalRecords =>
      match db.pageResult with
      | Except.error e =>
          ⟨ListOutcome.serverError ("Error querying employees: " ++ e),
           [IssuedQuery.countQ countQuery countArgs, IssuedQuery.pageQ mainQuery mainArgs]⟩
      | Except.ok rows =>
          let employees := rows.foldl (fun s row => s.push (materializeEmployee row)) GoSlice.nil
          let totalPages := totalPagesCalc totalRecords pageSize
          ⟨ListOutcome.ok ⟨employees, totalRecords, page, pageSize, totalPages⟩,
           [IssuedQuery.countQ countQuery countArgs, IssuedQuery.pageQ mainQuery mainArgs]⟩

/-- `GetEmployeeList` as invoked over a parsed URL query string, every
parameter read with `Values.Get` (absent parameter reads as `""`). -/
def GetEmployeeListHttp (q : List (String × String)) (db : ListDB) : ListExec :=
  GetEmployeeList (goQueryGet q "page") (goQueryGet q "page_size")
    (goQueryGet q "sort_by") (goQueryGet q "sort_order") (goQueryGet q "search") db

/-- The required-field validation shared by `CreateEmployee`
(employee.go:68-71) and `UpdateEmployee` (employee.go:448-451): prefix_name,
first_name and last_name must be non-empty. -/
def employeeRequiredFieldsOk (e : Employee) : Bool :=
  ¬ (e.prefix_name = "" ∨ e.first_name = "" ∨ e.last_name = "")

/-- The argument list bound to `CreateEmployee`'s INSERT (employee.go:77), in
the column order employee_code, prefix_name, first_name, last_name, nickname,
email, phone_number, gender, birth_date, hire_date, department, position,
employment_type.  Only prefix_name, first_name and last_name come from the
decoded request body; every other binding is the literal `""`, `0` or `nil`. -/
def createEmployeeInsertArgs (e : Employee) : List GoValue :=
  [GoValue.str "", GoValue.str e.prefix_name, GoValue.str e.first_name,
   GoValue.str e.last_name, GoValue.str "", GoValue.str "", GoValue.str "",
   GoValue.int 0, GoValue.null, GoValue.null, GoValue.str "", GoValue.str "",
   GoValue.int 0]

/-- The `m_employee` row stored by `CreateEmployee`'s INSERT (employee.go:74-77)
for a validated request body `e`: the thirteen listed columns take the bound
values of `createEmployeeInsertArgs`, the id is server-generated, and the
columns absent from the INSERT (`is_active`, `created_at`, `updated_at`) take
table defaults, passed in here since no schema is in the repository. -/
def createEmployeeStoredRow (e : Employee) (newId : String) (defActive : Bool)
    (defCreated defUpdated : Option GoTime) : EmployeeRow :=
  { id := newId
    employee_code := some ""
    prefix_name := e.prefix_name
    first_name := e.first_name
    last_name := e.last_name
    nickname := some ""
    email := some ""
    phone_number := some ""
    gender := some 0
    birth_date := none
    hire_date := none
    department := some ""
    position := some ""
    employment_type := some 0
    is_active := defActive
    created_at := defCreated
    updated_at := defUpdated }

/-- The nil-unless-non-empty interface value prepared for `birth_date` and
`hire_date` in `UpdateEmployee` (employee.go:465-471): an empty string stays
a nil interface (bound as SQL NULL), a non-empty string is bound verbatim. -/
def nullableDateArg (s : String) : GoValue :=
  if s ≠ "" then GoValue.str s else GoValue.null

/-- The argument list bound to `UpdateEmployee`'s UPDATE (employee.go:478-493),
in placeholder order $1..$15: every string field of the body verbatim except
birth_date and hire_date, which go through `nullableDateArg`. -/
def updateEmployeeArgs (e : Employee) (employeeID : String) : List GoValue :=
  [GoValue.str e.employee_code, GoValue.str e.prefix_name,
   GoValue.str e.first_name, GoValue.str e.last_name, GoValue.str e.nickname,
   GoValue.str e.email, GoValue.str e.phone_number, GoValue.int e.gender,
   nullableDateArg e.birth_date, nullableDateArg e.hire_date,
   GoValue.str e.department, GoValue.str e.position,
   GoValue.int e.employment_type, GoValue.bool e.is_active,
   GoValue.str employeeID]

/-- The `m_employee` row after `UpdateEmployee`'s UPDATE (employee.go:454-462)
applies to the matched row `old`: each SET column takes its binding from
`updateEmployeeArgs`, with date strings parsed by the database (`parseDate`,
abstract here since the SQL date parser is outside the repository), a NULL
binding clearing the column, and `updated_at = CURRENT_TIMESTAMP` (`now`). -/
def appliedUpdateRow (old : EmployeeRow) (e : Employee)
    (parseDate : String → Option GoTime) (now : GoTime) : EmployeeRow :=
  { id := old.id
    employee_code := some e.employee_code
    prefix_name := e.prefix_name
    first_name := e.first_name
    last_name := e.last_name
    nickname := some e.nickname
    email := some e.email
    phone_number := some e.phone_number
    gender := some e.gender
    birth_date :=
      match nullableDateArg e.birth_date with
      | GoValue.str s => parseDate s
      | _ => none
    hire_date :=
      match nullableDateArg e.hire_date with
      | GoValue.str s => parseDate s
      | _ => none
    department := some e.department
    position := some e.position
    employment_type := some e.employment_type
    is_active := e.is_active
    created_at := old.created_at
    updated_at := some now }

/-- The `Geography` response record (location.go:11-14). -/
structure Geography where
  geography_id : Int
  name : String
deriving Repr, DecidableEq

/-- A raw `m_geography` row; both columns are scanned directly
(location.go:82), so neither is nullable. -/
structure GeographyRow where
  geography_id : Int
  name : String
deriving Repr, DecidableEq

/-- The row decoding of `GetGeographies` (location.go:80-87). -/
def materializeGeography (r : GeographyRow) : Geography :=
  { geography_id := r.geography_id, name := r.name }

/-- The `Province` response record (location.go:17-25). -/
structure Province where
  province_id : Int
  province_name_th : String
  province_name_en : String
  geography_id : Int
  created_at : String
  updated_at : String
  deleted_at : String
deriving Repr, DecidableEq

/-- A raw `m_province` row as scanned by `GetProvinces` (location.go:153-164):
the three timestamp columns are read into `sql.NullString`, i.e. as the
driver's raw textual rendering, not parsed into `time.Time`. -/
structure ProvinceRow where
  province_id : Int
  province_name_th : String
  province_name_en : String
  geography_id : Int
  created_at : Option String
  updated_at : Option String
  deleted_at : Option String
deriving Repr, DecidableEq

/-- The row decoding of `GetProvinces` (location.go:152-180): a present
timestamp string is copied verbatim into the response field; an absent one
leaves the empty string.  No reformatting is applied. -/
def materializeProvince (r : ProvinceRow) : Province :=
  { province_id := r.province_id
    province_name_th := r.province_name_th
    province_name_en := r.province_name_en
    geography_id := r.geography_id
    created_at := r.created_at.getD ""
    updated_at := r.updated_at.getD ""
    deleted_at := r.deleted_at.getD "" }

/-- The `District` response record (location.go:28-36). -/
structure District where
  district_id : Int
  name_th : String
  name_en : String
  province_id : Int
  created_at : String
  updated_at : String
  deleted_at : String
deriving Repr, DecidableEq

/-- A raw `m_district` row as scanned by `GetDistricts` (location.go:246-260). -/
structure DistrictRow where
  district_id : Int
  name_th : String
  name_en : String
  province_id : Int
  created_at : Option String
  updated_at : Option String
  deleted_at : Option String
deriving Repr, DecidableEq

/-- The row decoding of `GetDistricts` (location.go:245-273). -/
def materializeDistrict (r : DistrictRow) : District :=
  { district_id := r.district_id
    name_th := r.name_th
    name_en := r.name_en
    province_id := r.province_id
    created_at := r.created_at.getD ""
    updated_at := r.updated_at.getD ""
    deleted_at := r.deleted_at.getD "" }

/-- The `SubDistrict` response record (location.go:39-50). -/
structure SubDistrict where
  sub_district_id : Int
  zip_code : Int
  name_th : String
  name_en : String
  district_id : Int
  lat : String
  long : String
  created_at : String
  updated_at : String
  deleted_at : String
deriving Repr, DecidableEq

/-- A raw `m_sub_district` row as scanned by `GetSubDistricts`
(location.go:339-353). -/
structure SubDistrictRow where
  sub_district_id : Int
  zip_code : Int
  name_th : String
  name_en : String
  district_id : Int
  lat : Option String
  long : Option String
  created_at : Option String
  updated_at : Option String
  deleted_at : Option String
deriving Repr, DecidableEq

/-- The row decoding of `GetSubDistricts` (location.go:338-375). -/
def materializeSubDistrict (r : SubDistrictRow) : SubDistrict :=
  { sub_district_id := r.sub_district_id
    zip_code := r.zip_code
    name_th := r.name_th
    name_en := r.name_en
    district_id := r.district_id
    lat := r.lat.getD ""
    long := r.long.getD ""
    created_at := r.created_at.getD ""
    updated_at := r.updated_at.getD ""
    deleted_at := r.deleted_at.getD "" }

/-- The `Department` response record (department.go:11-16). -/
structure Department where
  department_id : Int
  department_name : String
  created_date : String
  updated_date : String
deriving Repr, DecidableEq

/-- A raw `r_department` row; all four columns are scanned directly into the
struct (department.go:48-53), none through a nullable wrapper. -/
structure DepartmentRow where
  department_id : Int
  department_name : String
  created_date : String
  updated_date : String
deriving Repr, DecidableEq

/-- The row decoding of `GetDepartments` (department.go:46-58). -/
def materializeDepartment (r : DepartmentRow) : Department :=
  { department_id := r.department_id
    department_name := r.department_name
    created_date := r.created_date
    updated_date := r.updated_date }

/-- The `Position` response record (department.go:69-76). -/
structure Position where
  position_id : Int
  department_id : Int
  position_name : String
  acronym : String
  created_date : String
  updated_date : String
deriving Repr, DecidableEq

/-- A raw `r_position` row as scanned by `GetPositions`
(department.go:130-144): the two date columns are `sql.NullString`. -/
structure PositionRow where
  position_id : Int
  department_id : Int
  position_name : String
  acronym : String
  created_date : Option String
  updated_date : Option String
deriving Repr, DecidableEq

/-- The row decoding of `GetPositions` (department.go:130-153). -/
def materializePosition (r : PositionRow) : Position :=
  { position_id := r.position_id
    department_id := r.department_id
    position_name := r.position_name
    acronym := r.acronym
    created_date := r.created_date.getD ""
    updated_date := r.updated_date.getD "" }

/-- Whether `strconv.Atoi` reports an error for `s`: a syntax error (not an
optionally signed run of digits) or a range error (outside `int64`).  The
lookup handlers reject a non-empty filter parameter with 400 when this
holds. -/
def atoiHasError (s : String) : Bool :=
  match parseIntStr s with
  | none => true
  | some v => v > int64Max ∨ v < int64Min

/-- The HTTP outcome of a lookup listing handler, carrying the Go slice about
to be JSON-encoded on the 200 path. -/
inductive LookupOutcome (α : Type) where
  | badRequest (body : String)
  | serverError (body : String)
  | ok (data : GoSlice α)
deriving Repr, DecidableEq

/-- The row-accumulation loop shared by every lookup handler: start from the
nil slice and append one materialized record per row. -/
def accumulateRows {ρ α : Type} (materialize : ρ → α) (rows : List ρ) : GoSlice α :=
  rows.foldl (fun s r => s.push (materialize r)) GoSlice.nil

/-- The nil-slice normalization `if xs == nil \x7b xs = []T\x7b\x7d \x7d`
performed by every lookup handler just before encoding (department.go:60-62,
156-158; location.go:89-91, 182-184, 275-277, 377-379). -/
def normalizeNilSlice {α : Type} : GoSlice α → GoSlice α
  | GoSlice.nil => GoSlice.mk []
  | s => s

/-- The `GetGeographies` handler (location.go:60-95) for a GET request, as a
function of the store's response to its single query. -/
def GetGeographies (db : Except String (List GeographyRow)) : LookupOutcome Geography :=
  match db with
  | Except.error e => LookupOutcome.serverError ("Error querying geographies: " ++ e)
  | Except.ok rows =>
      LookupOutcome.ok (normalizeNilSlice (accumulateRows materializeGeography rows))

/-- The `GetDepartments` handler (department.go:26-66). -/
def GetDepartments (db : Except String (List DepartmentRow)) : LookupOutcome Department :=
  match db with
  | Except.error e => LookupOutcome.serverError ("Error querying departments: " ++ e)
  | Except.ok rows =>
      LookupOutcome.ok (normalizeNilSlice (accumulateRows materializeDepartment rows))

/-- The `GetPositions` handler (department.go:87-162): an optional
`department_id` filter parameter that fails to parse is a 400; otherwise the
chosen query's rows are accumulated and the slice normalized. -/
def GetPositions (departmentIDParam : String)
    (db : Except String (List PositionRow)) : LookupOutcome Position :=
  if departmentIDParam ≠ "" ∧ atoiHasError departmentIDParam then
    LookupOutcome.badRequest "Invalid department_id parameter"
  else
    match db with
    | Except.error e => LookupOutcome.serverError ("Error querying positions: " ++ e)
    | Except.ok rows =>
        LookupOutcome.ok (normalizeNilSlice (accumulateRows materializePosition rows))

/-- The `GetProvinces` handler (location.go:106-188). -/
def GetProvinces (geographyIDParam : String)
    (db : Except String (List ProvinceRow)) : LookupOutcome Province :=
  if geographyIDParam ≠ "" ∧ atoiHasError geographyIDParam then
    LookupOutcome.badRequest "Invalid geography_id parameter"
  else
    match db with
    | Except.error e => LookupOutcome.serverError ("Error querying provinces: " ++ e)
    | Except.ok rows =>
        LookupOutcome.ok (normalizeNilSlice (accumulateRows materializeProvince rows))

/-- The `GetDistricts` handler (location.go:199-281). -/
def GetDistricts (provinceIDParam : String)
    (db : Except String (List DistrictRow)) : LookupOutcome District :=
  if provinceIDParam ≠ "" ∧ atoiHasError provinceIDParam then
    LookupOutcome.badRequest "Invalid province_id parameter"
  else
    match db with
    | Except.error e => LookupOutcome.serverError ("Error querying districts: " ++ e)
    | Except.ok rows =>
        LookupOutcome.ok (normalizeNilSlice (accumulateRows materializeDistrict rows))

/-- The `GetSubDistricts` handler (location.go:292-383). -/
def GetSubDistricts (districtIDParam : String)
    (db : Except String (List SubDistrictRow)) : LookupOutcome SubDistrict :=
  if districtIDParam ≠ "" ∧ atoiHasError districtIDParam then
    LookupOutcome.badRequest "Invalid district_id parameter"
  else
    match db with
    | Except.error e => LookupOutcome.serverError ("Error querying sub-districts: " ++ e)
    | Except.ok rows =>
        LookupOutcome.ok (normalizeNilSlice (accumulateRows materializeSubDistrict rows))

/-! ## Helper lemmas -/

/-- Everything a successful plan's components can be: the two statements are
assembled from the one `buildSearchWhere` result, the count bindings are the
search bindings, the page bindings extend them with the clamped LIMIT and
OFFSET, and page/page_size are the clamped parameter values. -/
theorem planList_queries_shape (pageRaw pageSizeRaw sortByRaw sortOrderRaw search : String)
    (page pageSize : Int) (cq : String) (ca : List GoValue) (mq : String) (ma : List GoValue)
    (h : planList pageRaw pageSizeRaw sortByRaw sortOrderRaw search =
      ListPlan.queries page pageSize cq ca mq ma) :
    page = clampPage pageRaw ∧ pageSize = clampPageSize pageSizeRaw ∧
    cq = "SELECT COUNT(*) FROM m_employee" ++ (buildSearchWhere search).fst ∧
    ca = (buildSearchWhere search).snd ∧
    mq = mainQueryText (buildSearchWhere search).fst
        (if sortByRaw = "" then "created_at" else sortByRaw)
        (goToUpper (if sortOrderRaw ≠ "asc" ∧ sortOrderRaw ≠ "desc" then "asc" else sortOrderRaw))
        (argIndexAfterSearch search) (argIndexAfterSearch search + 1) ∧
    ma = ca ++ [GoValue.int pageSize, GoValue.int ((page - 1) * pageSize)] := by
  simp only [planList] at h
  by_cases hsb : sortByRaw = ""
  · rw [if_pos hsb] at h
    rw [if_pos hsb]
    split at h
    · exact absurd h (by simp)
    · injection h with h1 h2 h3 h4 h5 h6
      refine ⟨h1.symm, h2.symm, h3.symm, h4.symm, h5.symm, ?_⟩
      rw [← h6, ← h4, ← h1, ← h2]
  · rw [if_neg hsb] at h
    rw [if_neg hsb]
    split at h
    · exact absurd h (by simp)
    · injection h with h1 h2 h3 h4 h5 h6
      refine ⟨h1.symm, h2.symm, h3.symm, h4.symm, h5.symm, ?_⟩
      rw [← h6, ← h4, ← h1, ← h2]

/-- The page and page_size carried by a successful plan are the clamped
parameter values. -/
theorem planList_queries_page (pageRaw pageSizeRaw sortByRaw sortOrderRaw search : String)
    (page pageSize : Int) (cq : String) (ca : List GoValue) (mq : String) (ma : List GoValue)
    (h : planList pageRaw pageSizeRaw sortByRaw sortOrderRaw search =
      ListPlan.queries page pageSize cq ca mq ma) :
    page = clampPage pageRaw ∧ pageSize = clampPageSize pageSizeRaw := by
  obtain ⟨h1, h2, _⟩ := planList_queries_shape _ _ _ _ _ _ _ _ _ _ _ h
  exact ⟨h1, h2⟩

/-- A successful `GetEmployeeList` echoes the clamped page and page_size and
computes total_pages with `totalPagesCalc` at the clamped page_size. -/
theorem getEmployeeList_ok_echo (pageRaw pageSizeRaw sortByRaw sortOrderRaw search : String)
    (db : ListDB) (resp : EmployeeListResponse) (issued : List IssuedQuery)
    (h : GetEmployeeList pageRaw pageSizeRaw sortByRaw sortOrderRaw search db =
      ⟨ListOutcome.ok resp, issued⟩) :
    resp.page = clampPage pageRaw ∧ resp.page_size = clampPageSize pageSizeRaw ∧
    resp.total_pages = totalPagesCalc resp.total (clampPageSize pageSizeRaw) := by
  unfold GetEmployeeList at h
  split at h
  · exact absurd (congrArg ListExec.outcome h) (by simp)
  · rename_i page pageSize cq ca mq ma hplan
    obtain ⟨hp, hps⟩ := planList_queries_page _ _ _ _ _ _ _ _ _ _ _ hplan
    split at h
    · exact absurd (congrArg ListExec.outcome h) (by simp)
    · split at h
      · exact absurd (congrArg ListExec.outcome h) (by simp)
      · have := congrArg ListExec.outcome h
        simp only [ListExec.mk.injEq] at h
        obtain ⟨hout, _⟩ := h
        have hresp := ListOutcome.ok.inj hout
        subst hresp
        exact ⟨hp, hps, by rw [hps]⟩

/-! ## C2: unrecognized sort fields never reach the SQL text -/

/-- C2: a non-empty `sort_by` outside the allow-list makes `GetEmployeeList`
respond 400 ("Invalid sort field") without issuing any query, so the raw
input never appears in any generated SQL text; and an empty `sort_by` is
substituted with the default column `created_at` before planning. -/
theorem c2_invalid_sort_rejected_before_sql (sortByRaw : String)
    (hne : sortByRaw ≠ "")
    (hnotin : validSortFields.contains sortByRaw = false) :
    (∀ pageRaw pageSizeRaw sortOrderRaw search db,
        GetEmployeeList pageRaw pageSizeRaw sortByRaw sortOrderRaw search db =
          ⟨ListOutcome.badRequest "Invalid sort field", []⟩) ∧
    (∀ pageRaw pageSizeRaw sortOrderRaw search,
        planList pageRaw pageSizeRaw "" sortOrderRaw search =
          planList pageRaw pageSizeRaw "created_at" sortOrderRaw search) := by
  have hnotin' : sortByRaw ∉ validSortFields := by
    intro hmem
    simp only [List.contains] at hnotin
    rw [List.elem_eq_true_of_mem hmem] at hnotin
    exact Bool.noConfusion hnotin
  constructor
  · intro pageRaw pageSizeRaw sortOrderRaw search db
    unfold GetEmployeeList planList
    simp [hne, hnotin']
  · intro pageRaw pageSizeRaw sortOrderRaw search
    unfold planList
    simp

/-- Witness for C2 at the concrete injection attempt
`sort_by = "name; DROP TABLE m_employee --"`. -/
theorem c2_invalid_sort_rejected_before_sql_witness :
    GetEmployeeList "" "" "name; DROP TABLE m_employee --" "" ""
        ⟨Except.ok 0, Except.ok []⟩ =
      ⟨ListOutcome.badRequest "Invalid sort field", []⟩ :=
  (c2_invalid_sort_rejected_before_sql "name; DROP TABLE m_employee --"
    (by decide) (by decide)).1 "" "" "" "" _

/-! ## C4: total_pages is ceiling division -/

/-- C4: for non-negative `total` and `page_size ≥ 1`, the handler's
`(total + pageSize - 1) / pageSize` (Go truncating integer division) equals
the rational ceiling of `total / pageSize`, and a zero total gives zero
pages. -/
theorem c4_totalPages_is_ceil (total pageSize : Int)
    (ht : 0 ≤ total) (hp : 1 ≤ pageSize) :
    totalPagesCalc total pageSize = ⌈(total : ℚ) / (pageSize : ℚ)⌉ ∧
    (total = 0 → totalPagesCalc total pageSize = 0) := by
  have hp0 : (0 : Int) < pageSize := by omega
  have hnum : (0 : Int) ≤ total + pageSize - 1 := by omega
  have hediv : totalPagesCalc total pageSize = (total + pageSize - 1) / pageSize := by
    unfold totalPagesCalc goDiv
    exact Int.tdiv_eq_ediv hnum (by omega)
  have hmain : totalPagesCalc total pageSize = ⌈(total : ℚ) / (pageSize : ℚ)⌉ := by
    rw [hediv]
    set q : Int := (total + pageSize - 1) / pageSize with hq
    set r : Int := (total + pageSize - 1) % pageSize with hr
    have hrpos : 0 ≤ r := Int.emod_nonneg _ (by omega)
    have hrlt : r < pageSize := Int.emod_lt_of_pos _ hp0
    have hsum : pageSize * q + r = total + pageSize - 1 := Int.ediv_add_emod _ _
    have hQpos : (0 : ℚ) < (pageSize : ℚ) := by exact_mod_cast hp0
    symm
    rw [Int.ceil_eq_iff]
    constructor
    · rw [lt_div_iff₀ hQpos]
      have hZ : (q - 1) * pageSize < total := by nlinarith [hsum, hrpos]
      exact_mod_cast hZ
    · rw [div_le_iff₀ hQpos]
      have hZ : total ≤ q * pageSize := by nlinarith [hsum, hrlt]
      exact_mod_cast hZ
  refine ⟨hmain, fun h0 => ?_⟩
  rw [hmain, h0]
  simp

/-- Witness for C4 at `total = 25`, `page_size = 10` (ceiling 3). -/
theorem c4_totalPages_is_ceil_witness :
    totalPagesCalc 25 10 = ⌈(25 : ℚ) / (10 : ℚ)⌉ ∧ totalPagesCalc 25 10 = 3 :=
  ⟨(c4_totalPages_is_ceil 25 10 (by decide) (by decide)).1, by decide⟩

/-! ## C5: page and page_size clamping -/

/-- C5: a page parameter that is non-numeric (`parseIntStr` fails, so Atoi
yields 0) or parses below 1 becomes the effective page 1, and a page_size
parameter that is non-numeric or parses outside [1,100] becomes the
effective page_size 10; the plan built from such parameters is the plan for
"1"/"10" (same LIMIT 10 OFFSET 0 bindings), never an error; and any
successful response echoes the clamped values. -/
theorem c5_paging_clamped (pageRaw pageSizeRaw : String)
    (hpage : parseIntStr pageRaw = none ∨ atoi pageRaw < 1)
    (hps : parseIntStr pageSizeRaw = none ∨ atoi pageSizeRaw < 1 ∨ atoi pageSizeRaw > 100) :
    clampPage pageRaw = 1 ∧ clampPageSize pageSizeRaw = 10 ∧
    (∀ sortByRaw sortOrderRaw search,
        planList pageRaw pageSizeRaw sortByRaw sortOrderRaw search =
          planList "1" "10" sortByRaw sortOrderRaw search) ∧
    (∀ sortOrderRaw search page pageSize cq ca mq ma,
        planList pageRaw pageSizeRaw "" sortOrderRaw search =
          ListPlan.queries page pageSize cq ca mq ma →
        pageSize = 10 ∧ ma = ca ++ [GoValue.int 10, GoValue.int 0]) ∧
    (∀ sortByRaw sortOrderRaw search db resp issued,
        GetEmployeeList pageRaw pageSizeRaw sortByRaw sortOrderRaw search db =
          ⟨ListOutcome.ok resp, issued⟩ →
        resp.page = 1 ∧ resp.page_size = 10) := by
  have hatoiPage : atoi pageRaw < 1 := by
    rcases hpage with h | h
    · simp [atoi, h]
    · exact h
  have h1 : clampPage pageRaw = 1 := by
    unfold clampPage
    simp [hatoiPage]
  have hatoiPs : atoi pageSizeRaw < 1 ∨ atoi pageSizeRaw > 100 := by
    rcases hps with h | h
    · left; simp [atoi, h]
    · exact h
  have h2 : clampPageSize pageSizeRaw = 10 := by
    unfold clampPageSize
    simp only [if_pos hatoiPs]
  have hc1 : clampPage "1" = 1 := by decide
  have hc10 : clampPageSize "10" = 10 := by decide
  have hplanEq : ∀ sortByRaw sortOrderRaw search,
      planList pageRaw pageSizeRaw sortByRaw sortOrderRaw search =
        planList "1" "10" sortByRaw sortOrderRaw search := by
    intro sortByRaw sortOrderRaw search
    simp only [planList, h1, h2, hc1, hc10]
  refine ⟨h1, h2, hplanEq, ?_, ?_⟩
  · intro sortOrderRaw search page pageSize cq ca mq ma h
    obtain ⟨hpg, hpsz, _, hca, _, hma⟩ := planList_queries_shape _ _ _ _ _ _ _ _ _ _ _ h
    rw [h2] at hpsz
    rw [h1] at hpg
    refine ⟨hpsz, ?_⟩
    rw [hma, hpg, hpsz]
    norm_num
  · intro sortByRaw sortOrderRaw search db resp issued h
    obtain ⟨hp, hpsz, _⟩ := getEmployeeList_ok_echo _ _ _ _ _ _ _ _ h
    exact ⟨by rw [hp, h1], by rw [hpsz, h2]⟩

/-- Witness for C5 at the non-numeric page `"abc"` and out-of-range
page_size `"999"`. -/
theorem c5_paging_clamped_witness :
    clampPage "abc" = 1 ∧ clampPageSize "999" = 10 :=
  ⟨((c5_paging_clamped "abc" "999" (by decide) (by decide)).1),
   ((c5_paging_clamped "abc" "999" (by decide) (by decide)).2.1)⟩

/-! ## C6: one predicate, one set of bindings, empty search = no search -/

/-- C6: the count and page statements of any successful plan are assembled
from the identical WHERE predicate string and identical search bindings (the
page statement only appends the LIMIT/OFFSET values); and a request whose
`search` parameter is present but empty executes identically — same count
statement and bindings, hence the same total against every table state — to
a request carrying no `search` parameter at all. -/
theorem c6_shared_predicate_empty_search :
    (∀ pageRaw pageSizeRaw sortByRaw sortOrderRaw search page pageSize cq ca mq ma,
        planList pageRaw pageSizeRaw sortByRaw sortOrderRaw search =
          ListPlan.queries page pageSize cq ca mq ma →
        cq = "SELECT COUNT(*) FROM m_employee" ++ (buildSearchWhere search).fst ∧
        ca = (buildSearchWhere search).snd ∧
        mq = mainQueryText (buildSearchWhere search).fst
            (if sortByRaw = "" then "created_at" else sortByRaw)
            (goToUpper (if sortOrderRaw ≠ "asc" ∧ sortOrderRaw ≠ "desc" then "asc" else sortOrderRaw))
            (argIndexAfterSearch search) (argIndexAfterSearch search + 1) ∧
        ma = ca ++ [GoValue.int pageSize, GoValue.int ((page - 1) * pageSize)]) ∧
    (∀ q1 q2 : List (String × String),
        goQueryGet q1 "page" = goQueryGet q2 "page" →
        goQueryGet q1 "page_size" = goQueryGet q2 "page_size" →
        goQueryGet q1 "sort_by" = goQueryGet q2 "sort_by" →
        goQueryGet q1 "sort_order" = goQueryGet q2 "sort_order" →
        goQueryGet q1 "search" = "" →
        (∀ kv ∈ q2, kv.fst ≠ "search") →
        ∀ db, GetEmployeeListHttp q1 db = GetEmployeeListHttp q2 db) := by
  constructor
  · intro pageRaw pageSizeRaw sortByRaw sortOrderRaw search page pageSize cq ca mq ma h
    obtain ⟨_, _, h3, h4, h5, h6⟩ := planList_queries_shape _ _ _ _ _ _ _ _ _ _ _ h
    exact ⟨h3, h4, h5, h6⟩
  · intro q1 q2 h1 h2 h3 h4 h5 h6 db
    have hfind : q2.find? (fun kv => kv.fst = "search") = none := by
      rw [List.find?_eq_none]
      intro kv hkv
      simpa using h6 kv hkv
    have h7 : goQueryGet q2 "search" = "" := by
      simp [goQueryGet, hfind]
    unfold GetEmployeeListHttp
    rw [h1, h2, h3, h4, h5, h7]

/-- Witness for C6: `?search=` (present but empty) behaves identically to no
query parameters at all on a concrete store. -/
theorem c6_shared_predicate_empty_search_witness :
    GetEmployeeListHttp [("search", "")] ⟨Except.ok 0, Except.ok []⟩ =
      GetEmployeeListHttp [] ⟨Except.ok 0, Except.ok []⟩ :=
  c6_shared_predicate_empty_search.2 [("search", "")] [] rfl rfl rfl rfl rfl
    (by simp) ⟨Except.ok 0, Except.ok []⟩

/-! ## C7: count failure aborts before the page query -/

/-- C7: when the count query fails, `GetEmployeeList` responds 500 with the
count error message, having issued only the count statement — the page
statement is never issued and no partial result is produced. -/
theorem c7_count_failure_aborts
    (pageRaw pageSizeRaw sortByRaw sortOrderRaw search : String) (db : ListDB)
    (e : String) (page pageSize : Int) (cq : String) (ca : List GoValue)
    (mq : String) (ma : List GoValue)
    (hplan : planList pageRaw pageSizeRaw sortByRaw sortOrderRaw search =
      ListPlan.queries page pageSize cq ca mq ma)
    (herr : db.countResult = Except.error e) :
    GetEmployeeList pageRaw pageSizeRaw sortByRaw sortOrderRaw search db =
      ⟨ListOutcome.serverError ("Error counting employees: " ++ e),
       [IssuedQuery.countQ cq ca]⟩ ∧
    ∀ sql args, IssuedQuery.pageQ sql args ∉
      (GetEmployeeList pageRaw pageSizeRaw sortByRaw sortOrderRaw search db).issued := by
  have hrun : GetEmployeeList pageRaw pageSizeRaw sortByRaw sortOrderRaw search db =
      ⟨ListOutcome.serverError ("Error counting employees: " ++ e),
       [IssuedQuery.countQ cq ca]⟩ := by
    simp [GetEmployeeList, hplan, herr]
  refine ⟨hrun, ?_⟩
  intro sql args hmem
  rw [hrun] at hmem
  simp at hmem

/-- Witness for C7: a failing count on a concrete request yields the 500 with
only the count statement issued. -/
theorem c7_count_failure_aborts_witness :
    GetEmployeeList "" "" "" "" "" ⟨Except.error "connection reset", Except.ok []⟩ =
      ⟨ListOutcome.serverError ("Error counting employees: " ++ "connection reset"),
       [IssuedQuery.countQ "SELECT COUNT(*) FROM m_employee" []]⟩ :=
  (c7_count_failure_aborts "" "" "" "" ""
      ⟨Except.error "connection reset", Except.ok []⟩ "connection reset" 1 10
      "SELECT COUNT(*) FROM m_employee" [] (mainQueryText "" "created_at" "ASC" 1 2)
      [GoValue.int 10, GoValue.int 0] (by decide) rfl).1

/-! ## C9: lookup endpoints encode a bare array, never null -/

/-- A bracketed JSON array string is never the four-character string null. -/
theorem bracketed_ne_null (x : String) : "[" ++ x ++ "]" ≠ "null" := by
  intro hcontra
  have hd := congrArg String.data hcontra
  simp [String.data_append] at hd

/-- After the nil-slice normalization the slice is non-nil, so its JSON
encoding is a bracketed array of the encoded elements. -/
theorem normalizeNilSlice_encodes_array {α : Type} (enc : α → String) (s : GoSlice α) :
    ∃ l, normalizeNilSlice s = GoSlice.mk l ∧
      goJsonEncodeSlice enc (normalizeNilSlice s) =
        "[" ++ String.intercalate "," (l.map enc) ++ "]" := by
  cases s with
  | nil => exact ⟨[], rfl, rfl⟩
  | mk l => exact ⟨l, rfl, rfl⟩

/-- C9: every lookup listing endpoint that reaches its 200 path encodes its
data as a bare JSON array — never null — and encodes zero rows as `[]`. -/
theorem c9_lookup_endpoints_bare_array :
    (∀ (enc : Geography → String) rows s,
        GetGeographies (Except.ok rows) = LookupOutcome.ok s →
        goJsonEncodeSlice enc s ≠ "null" ∧
        (rows = [] → goJsonEncodeSlice enc s = "[]")) ∧
    (∀ (enc : Department → String) rows s,
        GetDepartments (Except.ok rows) = LookupOutcome.ok s →
        goJsonEncodeSlice enc s ≠ "null" ∧
        (rows = [] → goJsonEncodeSlice enc s = "[]")) ∧
    (∀ (enc : Position → String) p rows s,
        GetPositions p (Except.ok rows) = LookupOutcome.ok s →
        goJsonEncodeSlice enc s ≠ "null" ∧
        (rows = [] → goJsonEncodeSlice enc s = "[]")) ∧
    (∀ (enc : Province → String) p rows s,
        GetProvinces p (Except.ok rows) = LookupOutcome.ok s →
        goJsonEncodeSlice enc s ≠ "null" ∧
        (rows = [] → goJsonEncodeSlice enc s = "[]")) ∧
    (∀ (enc : District → String) p rows s,
        GetDistricts p (Except.ok rows) = LookupOutcome.ok s →
        goJsonEncodeSlice enc s ≠ "null" ∧
        (rows = [] → goJsonEncodeSlice enc s = "[]")) ∧
    (∀ (enc : SubDistrict → String) p rows s,
        GetSubDistricts p (Except.ok rows) = LookupOutcome.ok s →
        goJsonEncodeSlice enc s ≠ "null" ∧
        (rows = [] → goJsonEncodeSlice enc s = "[]")) := by
  refine ⟨?_, ?_, ?_, ?_, ?_, ?_⟩
  · intro enc rows s h
    simp only [GetGeographies] at h
    have hs := (LookupOutcome.ok.inj h).symm
    subst hs
    obtain ⟨l, _, henc⟩ :=
      normalizeNilSlice_encodes_array enc (accumulateRows materializeGeography rows)
    exact ⟨by rw [henc]; exact bracketed_ne_null _, by intro hr; subst hr; rfl⟩
  · intro enc rows s h
    simp only [GetDepartments] at h
    have hs := (LookupOutcome.ok.inj h).symm
    subst hs
    obtain ⟨l, _, henc⟩ :=
      normalizeNilSlice_encodes_array enc (accumulateRows materializeDepartment rows)
    exact ⟨by rw [henc]; exact bracketed_ne_null _, by intro hr; subst hr; rfl⟩
  · intro enc p rows s h
    simp only [GetPositions] at h
    split at h
    · exact absurd h (by simp)
    · have hs := (LookupOutcome.ok.inj h).symm
      subst hs
      obtain ⟨l, _, henc⟩ :=
        normalizeNilSlice_encodes_array enc (accumulateRows materializePosition rows)
      exact ⟨by rw [henc]; exact bracketed_ne_null _, by intro hr; subst hr; rfl⟩
  · intro enc p rows s h
    simp only [GetProvinces] at h
    split at h
    · exact absurd h (by simp)
    · have hs := (LookupOutcome.ok.inj h).symm
      subst hs
      obtain ⟨l, _, henc⟩ :=
        normalizeNilSlice_encodes_array enc (accumulateRows materializeProvince rows)
      exact ⟨by rw [henc]; exact bracketed_ne_null _, by intro hr; subst hr; rfl⟩
  · intro enc p rows s h
    simp only [GetDistricts] at h
    split at h
    · exact absurd h (by simp)
    · have hs := (LookupOutcome.ok.inj h).symm
      subst hs
      obtain ⟨l, _, henc⟩ :=
        normalizeNilSlice_encodes_array enc (accumulateRows materializeDistrict rows)
      exact ⟨by rw [henc]; exact bracketed_ne_null _, by intro hr; subst hr; rfl⟩
  · intro enc p rows s h
    simp only [GetSubDistricts] at h
    split at h
    · exact absurd h (by simp)
    · have hs := (LookupOutcome.ok.inj h).symm
      subst hs
      obtain ⟨l, _, henc⟩ :=
        normalizeNilSlice_encodes_array enc (accumulateRows materializeSubDistrict rows)
      exact ⟨by rw [henc]; exact bracketed_ne_null _, by intro hr; subst hr; rfl⟩

/-- Witness for C9: `GetGeographies` over an empty table encodes `[]`. -/
theorem c9_lookup_endpoints_bare_array_witness :
    goJsonEncodeSlice (fun g => g.name) (GoSlice.mk ([] : List Geography)) = "[]" ∧
    goJsonEncodeSlice (fun g => g.name) (GoSlice.mk ([] : List Geography)) ≠ "null" :=
  ⟨(c9_lookup_endpoints_bare_array.1 (fun g => g.name) [] (GoSlice.mk []) rfl).2 rfl,
   (c9_lookup_endpoints_bare_array.1 (fun g => g.name) [] (GoSlice.mk []) rfl).1⟩

/-! ## C10: update clears empty dates, writes other strings verbatim -/

/-- C10: in `UpdateEmployee`, an empty birth_date or hire_date is bound as
SQL NULL (clearing the stored column, which then decodes back as the empty
string), a non-empty one is bound verbatim, and every other optional string
field is bound verbatim, empty string included. -/
theorem c10_update_date_nulling (e : Employee) (employeeID : String) :
    (e.birth_date = "" → (updateEmployeeArgs e employeeID).get? 8 = some GoValue.null) ∧
    (e.birth_date ≠ "" →
      (updateEmployeeArgs e employeeID).get? 8 = some (GoValue.str e.birth_date)) ∧
    (e.hire_date = "" → (updateEmployeeArgs e employeeID).get? 9 = some GoValue.null) ∧
    (e.hire_date ≠ "" →
      (updateEmployeeArgs e employeeID).get? 9 = some (GoValue.str e.hire_date)) ∧
    (updateEmployeeArgs e employeeID).get? 0 = some (GoValue.str e.employee_code) ∧
    (updateEmployeeArgs e employeeID).get? 4 = some (GoValue.str e.nickname) ∧
    (updateEmployeeArgs e employeeID).get? 5 = some (GoValue.str e.email) ∧
    (updateEmployeeArgs e employeeID).get? 6 = some (GoValue.str e.phone_number) ∧
    (updateEmployeeArgs e employeeID).get? 10 = some (GoValue.str e.department) ∧
    (updateEmployeeArgs e employeeID).get? 11 = some (GoValue.str e.position) ∧
    (∀ old parseDate now, e.birth_date = "" →
        (appliedUpdateRow old e parseDate now).birth_date = none ∧
        (materializeEmployee (appliedUpdateRow old e parseDate now)).birth_date = "") ∧
    (∀ old parseDate now, e.hire_date = "" →
        (appliedUpdateRow old e parseDate now).hire_date = none ∧
        (materializeEmployee (appliedUpdateRow old e parseDate now)).hire_date = "") := by
  refine ⟨?_, ?_, ?_, ?_, rfl, rfl, rfl, rfl, rfl, rfl, ?_, ?_⟩
  · intro h; simp [updateEmployeeArgs, nullableDateArg, h]
  · intro h; simp [updateEmployeeArgs, nullableDateArg, h]
  · intro h; simp [updateEmployeeArgs, nullableDateArg, h]
  · intro h; simp [updateEmployeeArgs, nullableDateArg, h]
  · intro old parseDate now h
    exact ⟨by simp [appliedUpdateRow, nullableDateArg, h],
           by simp [materializeEmployee, appliedUpdateRow, nullableDateArg, h]⟩
  · intro old parseDate now h
    exact ⟨by simp [appliedUpdateRow, nullableDateArg, h],
           by simp [materializeEmployee, appliedUpdateRow, nullableDateArg, h]⟩

/-- Witness for C10 at a concrete body with empty birth_date and non-empty
hire_date. -/
theorem c10_update_date_nulling_witness :
    (updateEmployeeArgs
        { id := "", employee_code := "EMP001", prefix_name := "Mr",
          first_name := "John", last_name := "Smith", nickname := "",
          email := "john@example.com", phone_number := "", gender := 1,
          birth_date := "", hire_date := "2020-01-15", department := "IT",
          position := "Developer", employment_type := 2, is_active := true,
          created_at := "", updated_at := "" } "42").get? 8 = some GoValue.null ∧
    (updateEmployeeArgs
        { id := "", employee_code := "EMP001", prefix_name := "Mr",
          first_name := "John", last_name := "Smith", nickname := "",
          email := "john@example.com", phone_number := "", gender := 1,
          birth_date := "", hire_date := "2020-01-15", department := "IT",
          position := "Developer", employment_type := 2, is_active := true,
          created_at := "", updated_at := "" } "42").get? 9 =
      some (GoValue.str "2020-01-15") :=
  ⟨(c10_update_date_nulling _ "42").1 rfl,
   (c10_update_date_nulling _ "42").2.2.2.1 (by decide)⟩

/-! ## C3: empty-table listing — the data field is NOT an empty array -/

/-- C3 fails on the code: `GetEmployeeList` never initializes the nil
`employees` slice, so for a parameterless request over an empty table the
envelope carries the nil slice, whose JSON encoding of the `data` field is
null — not the empty array `[]` the claim states.  All the numeric envelope
fields are as claimed. -/
theorem c3_counterexample_data_is_null :
    GetEmployeeListHttp [] ⟨Except.ok 0, Except.ok []⟩ =
      ⟨ListOutcome.ok ⟨GoSlice.nil, 0, 1, 10, 0⟩,
       [IssuedQuery.countQ "SELECT COUNT(*) FROM m_employee" [],
        IssuedQuery.pageQ (mainQueryText "" "created_at" "ASC" 1 2)
          [GoValue.int 10, GoValue.int 0]]⟩ ∧
    goJsonEncodeSlice (fun emp => emp.id) (GoSlice.nil : GoSlice Employee) = "null" ∧
    ("null" : String) ≠ "[]" :=
  ⟨by decide, rfl, by decide⟩

/-- C3 amended: a parameterless request over an empty table responds 200
with total 0, page 1, page_size 10, total_pages 0, but its data slice is the
Go nil slice, which `encoding/json` renders as null rather than `[]`. -/
theorem c3_amended_empty_table_envelope :
    GetEmployeeListHttp [] ⟨Except.ok 0, Except.ok []⟩ =
      ⟨ListOutcome.ok ⟨GoSlice.nil, 0, 1, 10, 0⟩,
       [IssuedQuery.countQ "SELECT COUNT(*) FROM m_employee" [],
        IssuedQuery.pageQ (mainQueryText "" "created_at" "ASC" 1 2)
          [GoValue.int 10, GoValue.int 0]]⟩ ∧
    goJsonEncodeSlice (fun emp => emp.id) (GoSlice.nil : GoSlice Employee) = "null" :=
  ⟨by decide, rfl⟩

/-! ## C8: timestamp formatting is not uniform across endpoints -/

/-- C8 fails on the code: the employee handlers format a present audit
timestamp with the date-plus-time layout, but `GetProvinces` scans its audit
columns into `sql.NullString` and copies the driver's raw rendering through
verbatim, applying no canonical format — at a concrete stored instant the two
endpoints render the same semantic kind differently. -/
theorem c8_counterexample_province_verbatim :
    (materializeEmployee
        { id := "e1", employee_code := none, prefix_name := "Mr",
          first_name := "John", last_name := "Smith", nickname := none,
          email := none, phone_number := none, gender := none,
          birth_date := none, hire_date := none, department := none,
          position := none, employment_type := none, is_active := true,
          created_at := some ⟨2025, 1, 2, 3, 4, 5⟩,
          updated_at := none }).created_at = "2025-01-02 03:04:05" ∧
    (materializeProvince
        { province_id := 1, province_name_th := "PTh", province_name_en := "PEn",
          geography_id := 1,
          created_at := some "2025-01-02 03:04:05.678901+07",
          updated_at := none, deleted_at := none }).created_at =
      "2025-01-02 03:04:05.678901+07" ∧
    ("2025-01-02 03:04:05.678901+07" : String) ≠ "2025-01-02 03:04:05" :=
  ⟨by decide, rfl, by decide⟩

/-- C8 amended: within the employee handlers the policy holds uniformly —
absent optional timestamps decode to the empty string, present audit fields
(created_at, updated_at) format date-plus-time and present birth/hire dates
format date-only — while `GetProvinces` (like the other lookup endpoints)
passes a present timestamp column through verbatim as the scanned string,
applying no formatting (absent still decodes to the empty string there). -/
theorem c8_amended_per_endpoint_formatting :
    (∀ (row : EmployeeRow) (t : GoTime), row.created_at = some t →
        (materializeEmployee row).created_at = t.formatDateTime) ∧
    (∀ row : EmployeeRow, row.created_at = none →
        (materializeEmployee row).created_at = "") ∧
    (∀ (row : EmployeeRow) (t : GoTime), row.updated_at = some t →
        (materializeEmployee row).updated_at = t.formatDateTime) ∧
    (∀ row : EmployeeRow, row.updated_at = none →
        (materializeEmployee row).updated_at = "") ∧
    (∀ (row : EmployeeRow) (t : GoTime), row.birth_date = some t →
        (materializeEmployee row).birth_date = t.formatDateOnly) ∧
    (∀ row : EmployeeRow, row.birth_date = none →
        (materializeEmployee row).birth_date = "") ∧
    (∀ (row : EmployeeRow) (t : GoTime), row.hire_date = some t →
        (materializeEmployee row).hire_date = t.formatDateOnly) ∧
    (∀ row : EmployeeRow, row.hire_date = none →
        (materializeEmployee row).hire_date = "") ∧
    (∀ (r : ProvinceRow) (s : String), r.created_at = some s →
        (materializeProvince r).created_at = s) ∧
    (∀ r : ProvinceRow, r.created_at = none →
        (materializeProvince r).created_at = "") ∧
    (∀ (r : ProvinceRow) (s : String), r.updated_at = some s →
        (materializeProvince r).updated_at = s) := by
  refine ⟨?_, ?_, ?_, ?_, ?_, ?_, ?_, ?_, ?_, ?_, ?_⟩ <;>
    first
      | (intro row t h; simp [materializeEmployee, materializeProvince, h])
      | (intro row h; simp [materializeEmployee, materializeProvince, h])

/-- Witness for the amended C8 at concrete rows of each shape. -/
theorem c8_amended_per_endpoint_formatting_witness :
    (materializeEmployee
        { id := "e2", employee_code := none, prefix_name := "Ms",
          first_name := "Ann", last_name := "Lee", nickname := none,
          email := none, phone_number := none, gender := none,
          birth_date := some ⟨1990, 5, 1, 0, 0, 0⟩, hire_date := none,
          department := none, position := none, employment_type := none,
          is_active := true, created_at := none,
          updated_at := none }).birth_date = GoTime.formatDateOnly ⟨1990, 5, 1, 0, 0, 0⟩ ∧
    (materializeProvince
        { province_id := 2, province_name_th := "T", province_name_en := "E",
          geography_id := 1, created_at := some "raw driver text",
          updated_at := none, deleted_at := none }).created_at = "raw driver text" :=
  ⟨c8_amended_per_endpoint_formatting.2.2.2.2.1 _ ⟨1990, 5, 1, 0, 0, 0⟩ rfl,
   c8_amended_per_endpoint_formatting.2.2.2.2.2.2.2.2.1 _ "raw driver text" rfl⟩

/-! ## C1: create-then-fetch drops every optional submitted field -/

/-- C1 fails on the code: `CreateEmployee` binds the literal empty string,
zero or nil for every INSERT column except prefix_name, first_name and
last_name (employee.go:77), so a validated submission loses employee_code,
nickname, email, phone_number, gender, birth_date, hire_date, department,
position and employment_type — fetching the created row returns blanks for
all of them while the three name fields round-trip. -/
theorem c1_create_fetch_drops_fields :
    (let eIn : Employee :=
      { id := "", employee_code := "EMP001", prefix_name := "Mr",
        first_name := "John", last_name := "Smith", nickname := "Johnny",
        email := "john@example.com", phone_number := "0812345678", gender := 1,
        birth_date := "1990-05-01", hire_date := "2020-01-15",
        department := "IT", position := "Developer", employment_type := 2,
        is_active := true, created_at := "", updated_at := "" }
     let fetched :=
       materializeEmployee (createEmployeeStoredRow eIn "srv-id-1" true none none)
     employeeRequiredFieldsOk eIn = true ∧
     createEmployeeInsertArgs eIn =
       [GoValue.str "", GoValue.str "Mr", GoValue.str "John",
        GoValue.str "Smith", GoValue.str "", GoValue.str "", GoValue.str "",
        GoValue.int 0, GoValue.null, GoValue.null, GoValue.str "",
        GoValue.str "", GoValue.int 0] ∧
     fetched.prefix_name = eIn.prefix_name ∧
     fetched.first_name = eIn.first_name ∧
     fetched.last_name = eIn.last_name ∧
     fetched.employee_code = "" ∧
     fetched.employee_code ≠ eIn.employee_code ∧
     fetched.nickname ≠ eIn.nickname ∧
     fetched.email ≠ eIn.email ∧
     fetched.phone_number ≠ eIn.phone_number ∧
     fetched.gender ≠ eIn.gender ∧
     fetched.birth_date ≠ eIn.birth_date ∧
     fetched.hire_date ≠ eIn.hire_date ∧
     fetched.department ≠ eIn.department ∧
     fetched.position ≠ eIn.position ∧
     fetched.employment_type ≠ eIn.employment_type) := by
  decide
